import Mathlib

/-!
Shallow embedding of the forecast-selection core of `fastapi-weather`
(`src/web/app/utils.py`, `schemas.py`, `services.py`, `models.py`).

Modelling conventions:
* Python `float` temperatures and wind speeds are modelled as `ℚ`
  (the program only adds and compares the literals `7.5`, `10`, `3`, `6`,
  so no floating-point rounding is ever exercised).
* Python `None`-able fields are `Option _`.
* `weather_id` is an `int` in the schema; the provider condition codes are
  nonnegative, and the code inspects `str(weather_id)[0]`, which for a
  nonnegative integer is its leading decimal digit; we model `weather_id : ℕ`
  and the leading digit as `firstDigit`.
* `datetime` values are modelled at the granularity the code uses:
  a calendar date (`ℤ` day number) and an hour-of-day (`ℕ`).
-/

/-- `schemas.WeatherForecast` (the spec's `WeatherSample`): one parsed
forecast record.  `dt` is split into the calendar date and hour-of-day,
the only two projections of it the code reads. -/
structure WeatherForecast where
  weather_id : ℕ
  current_temp : ℚ
  feels_like : ℚ
  image_url : String
  description : String
  wind_speed : ℚ
  humidity : ℚ
  visibility : ℚ
  pressure : ℚ
  dt_date : ℤ
  dt_hour : ℕ
  deriving DecidableEq, Repr

/-- `models.UserWeatherPreferences` (the spec's `PreferenceVector` plus the
location): every attribute is nullable in the database. -/
structure UserWeatherPreferences where
  latitude : Option ℚ := none
  longitude : Option ℚ := none
  temp_min : Option ℤ := none
  temp_max : Option ℤ := none
  likes_rain : Option Bool := none
  likes_sun : Option Bool := none
  likes_wind : Option Bool := none
  likes_fog : Option Bool := none
  likes_snow : Option Bool := none
  deriving DecidableEq, Repr

/-- Leading decimal digit of a nonnegative integer: `str(n)[0]` as a digit.
`utils.py` line 177 converts `weather_id` to a string and inspects its
first character. -/
def firstDigit (n : ℕ) : ℕ :=
  if n < 10 then n else firstDigit (n / 10)
decreasing_by exact Nat.div_lt_self (by omega) (by omega)

/-- `utils.py` lines 162-174, the temperature section of
`pick_best_forecast_for_user`: the running score starts at `0`, the
`temp_min` check adjusts it by `±7.5`, and the `temp_max` check runs only
when the running score is still `≥ 0`. -/
def tempScore (user_prefs : UserWeatherPreferences) (temp : ℚ) : ℚ :=
  let s0 : ℚ := 0
  let s1 : ℚ :=
    match user_prefs.temp_min with
    | some temp_min => if temp < (temp_min : ℚ) then s0 - 7.5 else s0 + 7.5
    | none => s0
  if s1 ≥ 0 then
    match user_prefs.temp_max with
    | some temp_max => if temp > (temp_max : ℚ) then s1 - 7.5 else s1 + 7.5
    | none => s1
  else s1

/-- `utils.py` lines 176-214, the weather-condition section: the amount
added to the running score (the section never reads the running score, it
only adds to it).  Branch structure mirrors the source `if`/`elif` chain:
rain uses `if`/`elif` on `likes_rain`, sun uses two independent `if`s on
`likes_sun`, snow and fog use two independent `if`s. -/
def condScore (user_prefs : UserWeatherPreferences) (weather_id : ℕ) : ℚ :=
  let is_raining := firstDigit weather_id ∈ [2, 3, 5]
  if is_raining then
    if user_prefs.likes_rain = some true then 10
    else if user_prefs.likes_rain = some false then -10
    else 0
  else if firstDigit weather_id = 8 then
    let is_clear := weather_id = 800 ∨ weather_id = 801
    let is_cloudy := weather_id = 802 ∨ weather_id = 803 ∨ weather_id = 804
    (if user_prefs.likes_sun = some true then
      (if is_clear then 10 else if is_cloudy then -10 else 0) else 0)
    + (if user_prefs.likes_sun = some false then
      (if is_clear then -10 else if is_cloudy then 10 else 0) else 0)
  else if firstDigit weather_id = 6 then
    (if user_prefs.likes_snow = some true then 10 else 0)
    + (if user_prefs.likes_snow = some false then -10 else 0)
  else if weather_id ∈ [701, 711, 721, 741] then
    (if user_prefs.likes_fog = some true then 10 else 0)
    + (if user_prefs.likes_fog = some false then -10 else 0)
  else 0

/-- `utils.py` lines 216-228, the wind section: the amount added to the
running score (again independent of the running score). -/
def windScore (user_prefs : UserWeatherPreferences) (wind_speed : ℚ) : ℚ :=
  if wind_speed > 6 then
    if user_prefs.likes_wind = some true then 3
    else if user_prefs.likes_wind = some false then -3
    else 0
  else
    if user_prefs.likes_wind = some true then -3
    else if user_prefs.likes_wind = some false then 3
    else 0

/-- `utils.py` lines 160-230: the per-forecast score.  The source mutates a
single `score` variable section by section; only the temperature section
reads the running value (its `score >= 0` test, inside `tempScore`), the
condition and wind sections only add to it, so the total is the sequential
sum of the three sections. -/
def score (user_prefs : UserWeatherPreferences) (forecast : WeatherForecast) : ℚ :=
  let s1 := tempScore user_prefs forecast.current_temp
  let s2 := s1 + condScore user_prefs forecast.weather_id
  s2 + windScore user_prefs forecast.wind_speed

/-- The order in which Python's stable `sorted(forecasts_score.items(),
key=lambda x: x[1], reverse=True)` (utils.py lines 232-234) arranges the
`(index, score)` pairs: strictly larger score first, and, for equal
scores, smaller original index first (stability: the dict items are in
index order). -/
def pickOrder (a b : ℕ × ℚ) : Prop :=
  b.2 < a.2 ∨ (a.2 = b.2 ∧ a.1 ≤ b.1)

instance : DecidableRel pickOrder := fun a b => by
  unfold pickOrder; infer_instance

instance : IsTotal (ℕ × ℚ) pickOrder where
  total a b := by
    rcases lt_trichotomy a.2 b.2 with h | h | h
    · exact Or.inr (Or.inl h)
    · rcases Nat.le_total a.1 b.1 with h1 | h1
      · exact Or.inl (Or.inr ⟨h, h1⟩)
      · exact Or.inr (Or.inr ⟨h.symm, h1⟩)
    · exact Or.inl (Or.inl h)

instance : IsTrans (ℕ × ℚ) pickOrder where
  trans a b c hab hbc := by
    rcases hab with h1 | ⟨h1, h1i⟩ <;> rcases hbc with h2 | ⟨h2, h2i⟩
    · exact Or.inl (h2.trans h1)
    · exact Or.inl (h2 ▸ h1)
    · exact Or.inl (h1 ▸ h2)
    · exact Or.inr ⟨h1.trans h2, h1i.trans h2i⟩

/-- `utils.py` line 159: the scored enumeration of the candidate list
(the dict `forecasts_score` as its list of items, in insertion = index
order). -/
def scoredList (user_prefs : UserWeatherPreferences)
    (forecasts : List WeatherForecast) : List (ℕ × ℚ) :=
  forecasts.enum.map (fun p => (p.1, score user_prefs p.2))

/-- `utils.py` lines 152-246, `pick_best_forecast_for_user`: score every
forecast, stable-sort the `(index, score)` pairs by descending score
(modelled as sorting by `pickOrder`, which is exactly the order the stable
descending sort produces on the index-ordered items), collect the leading
run of maximal scores as `best_forcasts`, and return the forecast at the
first collected index.  An empty candidate list makes the Python
`sorted_forecasts[0]` raise; we return `none`. -/
def pick_best_forecast_for_user (user_prefs : UserWeatherPreferences)
    (forecasts : List WeatherForecast) : Option WeatherForecast :=
  let forecasts_score := scoredList user_prefs forecasts
  let sorted_forecasts := List.insertionSort pickOrder forecasts_score
  match sorted_forecasts with
  | [] => none
  | best :: rest =>
    let best_score := best.2
    let best_forcasts :=
      best :: (best :: rest).takeWhile (fun p => decide (p.2 = best_score))
    forecasts[(best_forcasts.headI).1]?

/-- `utils.py` lines 131-146, the daily-reduction loop of
`get_5_day_weather_for_user`: one pass over the provider samples with the
running index, skipping every sample after the first whose hour is not 12
or whose date is today, appending survivors to `forecasts_data`, and
stopping as soon as 5 forecasts are collected (the `break` after the
append). -/
def reduceLoop (date_today : ℤ) :
    ℕ → List WeatherForecast → List WeatherForecast → List WeatherForecast
  | _, [], forecasts_data => forecasts_data
  | index, weather_forecast :: rest, forecasts_data =>
    if index ≠ 0 ∧
        (weather_forecast.dt_hour ≠ 12 ∨ weather_forecast.dt_date = date_today) then
      reduceLoop date_today (index + 1) rest forecasts_data
    else
      let forecasts_data' := forecasts_data ++ [weather_forecast]
      if 5 ≤ forecasts_data'.length then forecasts_data'
      else reduceLoop date_today (index + 1) rest forecasts_data'

/-- The spec's `reduceToDaily`: the loop of `utils.py` lines 131-146 started
with index `0` and an empty accumulator. -/
def reduceToDaily (date_today : ℤ) (samples : List WeatherForecast) :
    List WeatherForecast :=
  reduceLoop date_today 0 samples []

/-- `models.ModelUpdateMixin.update` together with
`preferences.model_dump(exclude_unset=True)` in
`services.update_weather_preferences` (line 39): a payload field that is
present (even if explicitly `null`) overwrites the stored attribute, an
absent field leaves it unchanged. -/
def applyField {α : Type} (incoming : Option α) (current : α) : α :=
  match incoming with
  | some v => v
  | none => current

/-- `schemas.UserWeatherPreferencesUpdate`: `BaseUserWeatherPreferences`
passed through `partial_model`, so every field may be absent from the
payload.  `none` = absent, `some v` = explicitly present with parsed value
`v` (which may itself be `none`, the JSON `null`). -/
structure UserWeatherPreferencesUpdate where
  latitude : Option (Option ℚ) := none
  longitude : Option (Option ℚ) := none
  temp_min : Option (Option ℤ) := none
  temp_max : Option (Option ℤ) := none
  likes_rain : Option (Option Bool) := none
  likes_sun : Option (Option Bool) := none
  likes_wind : Option (Option Bool) := none
  likes_fog : Option (Option Bool) := none
  likes_snow : Option (Option Bool) := none
  deriving DecidableEq, Repr

/-- The value a payload field parses to: an absent field takes its default
`None`, indistinguishable from an explicit `null` once parsed (this is
what the validator's `values.get("temp_min", None)` sees). -/
def fieldValue {α : Type} : Option (Option α) → Option α
  | none => none
  | some v => v

/-- `Field(ge=-60, le=60)` on `temp_min`/`temp_max`
(`schemas.BaseUserWeatherPreferences` lines 35-36): checked only when the
parsed value is an actual integer. -/
def tempRangeOK : Option ℤ → Bool
  | some v => decide (-60 ≤ v ∧ v ≤ 60)
  | none => true

/-- `pydantic_extra_types` `Latitude` range. -/
def latRangeOK : Option ℚ → Bool
  | some v => decide (-90 ≤ v ∧ v ≤ 90)
  | none => true

/-- `pydantic_extra_types` `Longitude` range. -/
def lonRangeOK : Option ℚ → Bool
  | some v => decide (-180 ≤ v ∧ v ≤ 180)
  | none => true

/-- `schemas.py` lines 43-51, `temp_max_must_be_greater_than_temp_min`:
the cross-field check fires only when both parsed values are actual
integers; `values.get("temp_min", None)` is `None` whenever `temp_min` is
absent from the payload or explicitly `null`. -/
def temp_max_must_be_greater_than_temp_min
    (temp_max temp_min : Option ℤ) : Bool :=
  match temp_max, temp_min with
  | some tmax, some tmin => decide (tmin ≤ tmax)
  | _, _ => true

/-- Acceptance of an update payload by the pydantic model
`UserWeatherPreferencesUpdate`: per-field range constraints plus the
cross-field validator, all evaluated on the payload alone (the stored
vector is never consulted). -/
def payload_accepted (p : UserWeatherPreferencesUpdate) : Bool :=
  latRangeOK (fieldValue p.latitude) &&
  lonRangeOK (fieldValue p.longitude) &&
  tempRangeOK (fieldValue p.temp_min) &&
  tempRangeOK (fieldValue p.temp_max) &&
  temp_max_must_be_greater_than_temp_min
    (fieldValue p.temp_max) (fieldValue p.temp_min)

/-- `services.update_weather_preferences` (lines 34-42): overwrite exactly
the attributes present in the payload. -/
def update_weather_preferences (stored : UserWeatherPreferences)
    (p : UserWeatherPreferencesUpdate) : UserWeatherPreferences where
  latitude := applyField p.latitude stored.latitude
  longitude := applyField p.longitude stored.longitude
  temp_min := applyField p.temp_min stored.temp_min
  temp_max := applyField p.temp_max stored.temp_max
  likes_rain := applyField p.likes_rain stored.likes_rain
  likes_sun := applyField p.likes_sun stored.likes_sun
  likes_wind := applyField p.likes_wind stored.likes_wind
  likes_fog := applyField p.likes_fog stored.likes_fog
  likes_snow := applyField p.likes_snow stored.likes_snow

/-- The spec's stored-vector invariant: when both bounds are set,
`temp_max >= temp_min`. -/
def tempInvariant (prefs : UserWeatherPreferences) : Bool :=
  match prefs.temp_min, prefs.temp_max with
  | some tmin, some tmax => decide (tmin ≤ tmax)
  | _, _ => true

/-- A neutral concrete sample for instantiating the theorems: condition
code outside every family, calm wind, temperature 0. -/
def baseSample : WeatherForecast :=
  { weather_id := 0, current_temp := 0, feels_like := 0, image_url := "",
    description := "", wind_speed := 0, humidity := 0, visibility := 0,
    pressure := 0, dt_date := 0, dt_hour := 0 }

/-- The all-unset preference vector. -/
def allUnset : UserWeatherPreferences := {}

/-- The spec §8 scenario preference vector. -/
def scenarioPrefs : UserWeatherPreferences :=
  { temp_min := some 15, temp_max := some 25,
    likes_rain := some false, likes_sun := some true }

/-- Scenario sample A: temp 20, code 800 (clear), wind 2. -/
def sampleA : WeatherForecast :=
  { baseSample with weather_id := 800, current_temp := 20, wind_speed := 2 }

/-- Scenario sample B: temp 20, code 500 (rain), wind 2. -/
def sampleB : WeatherForecast :=
  { baseSample with weather_id := 500, current_temp := 20, wind_speed := 2 }

/-- Scenario sample C: temp 30, code 800, wind 2. -/
def sampleC : WeatherForecast :=
  { baseSample with weather_id := 800, current_temp := 30, wind_speed := 2 }

/-- Preferences with only `temp_min` set. -/
def minOnlyPrefs : UserWeatherPreferences := { temp_min := some 0 }

/-- A sample whose temperature is above `minOnlyPrefs.temp_min`. -/
def mildSample : WeatherForecast := { baseSample with current_temp := 1 }

/-- Wind-loving preferences. -/
def windPrefs : UserWeatherPreferences := { likes_wind := some true }

/-- A windy sample (`windSpeed = 8`). -/
def windySample : WeatherForecast := { baseSample with wind_speed := 8 }

/-- A calm sample (`windSpeed = 4`), otherwise identical to `windySample`. -/
def calmSample : WeatherForecast := { baseSample with wind_speed := 4 }

/-- Rain-loving preferences. -/
def rainPrefs : UserWeatherPreferences := { likes_rain := some true }

/-- A rain-family sample; ties with `tieSample1` at score 10 under
`rainPrefs`. -/
def tieSample0 : WeatherForecast :=
  { baseSample with weather_id := 500, humidity := 30 }

/-- A thunderstorm-family sample; ties with `tieSample0` at score 10 under
`rainPrefs`. -/
def tieSample1 : WeatherForecast :=
  { baseSample with weather_id := 200, humidity := 80 }

/-- Preferences with both temperature bounds set. -/
def lowTempPrefs : UserWeatherPreferences :=
  { temp_min := some 10, temp_max := some 50 }

/-- A sample colder than `lowTempPrefs.temp_min`. -/
def coldSample : WeatherForecast := { baseSample with current_temp := 5 }

/-- A sample that agrees with `baseSample` on the three scored fields and
differs everywhere else. -/
def noisySample : WeatherForecast :=
  { baseSample with
    feels_like := 9, humidity := 55, visibility := 2,
    pressure := 1013, description := "Sunny", image_url := "http://x",
    dt_date := 7, dt_hour := 3 }

lemma firstDigit_of_lt {n : ℕ} (h : n < 10) : firstDigit n = n := by
  rw [firstDigit]; simp [h]

lemma firstDigit_of_ge {n : ℕ} (h : 10 ≤ n) : firstDigit n = firstDigit (n / 10) := by
  rw [firstDigit]; simp [Nat.not_lt.2 h]

lemma length_scoredList (u : UserWeatherPreferences) (fs : List WeatherForecast) :
    (scoredList u fs).length = fs.length := by
  simp [scoredList]

lemma mem_scoredList_iff {u : UserWeatherPreferences} {fs : List WeatherForecast}
    {p : ℕ × ℚ} :
    p ∈ scoredList u fs ↔
      ∃ (j : ℕ) (hj : j < fs.length), p = (j, score u (fs.get ⟨j, hj⟩)) := by
  simp only [scoredList, List.mem_map]
  constructor
  · rintro ⟨⟨j, f⟩, hmem, rfl⟩
    have h := List.mem_enum_iff_getElem?.mp hmem
    rw [List.getElem?_eq_some] at h
    obtain ⟨hj, hget⟩ := h
    exact ⟨j, hj, by simp [List.get_eq_getElem, hget]⟩
  · rintro ⟨j, hj, rfl⟩
    refine ⟨(j, fs.get ⟨j, hj⟩), ?_, rfl⟩
    refine List.mem_enum_iff_getElem?.mpr ?_
    rw [List.getElem?_eq_getElem hj]
    rfl

lemma pick_eq_head {u : UserWeatherPreferences} {fs : List WeatherForecast}
    {best : ℕ × ℚ} {rest : List (ℕ × ℚ)}
    (hbr : List.insertionSort pickOrder (scoredList u fs) = best :: rest) :
    pick_best_forecast_for_user u fs = fs[best.1]? := by
  unfold pick_best_forecast_for_user
  simp only [hbr, List.headI]

lemma sorted_scoredList_ne_nil {u : UserWeatherPreferences}
    {fs : List WeatherForecast} (h : fs ≠ []) :
    List.insertionSort pickOrder (scoredList u fs) ≠ [] := by
  intro hnil
  have hperm := List.perm_insertionSort pickOrder (scoredList u fs)
  rw [hnil] at hperm
  have hlen := hperm.length_eq
  rw [length_scoredList] at hlen
  exact h (List.length_eq_zero.mp hlen.symm)

lemma pickOrder_refl (a : ℕ × ℚ) : pickOrder a a :=
  Or.inr ⟨rfl, le_refl _⟩

/-- The selection pipeline of `pick_best_forecast_for_user` (stable sort by
descending score, then take the head of the leading tied run) returns the
candidate at the least index attaining the maximum score. -/
lemma pick_eq_of_least_max (u : UserWeatherPreferences) (fs : List WeatherForecast)
    (i : ℕ) (hi : i < fs.length)
    (hmax : ∀ (j : ℕ) (hj : j < fs.length),
      score u (fs.get ⟨j, hj⟩) ≤ score u (fs.get ⟨i, hi⟩))
    (hfirst : ∀ (j : ℕ) (hj : j < i),
      score u (fs.get ⟨j, hj.trans hi⟩) < score u (fs.get ⟨i, hi⟩)) :
    pick_best_forecast_for_user u fs = some (fs.get ⟨i, hi⟩) := by
  have hne : fs ≠ [] := by
    intro h; rw [h] at hi; exact absurd hi (by simp)
  obtain ⟨best, rest, hbr⟩ :=
    List.exists_cons_of_ne_nil (@sorted_scoredList_ne_nil u fs hne)
  have hperm : List.Perm (List.insertionSort pickOrder (scoredList u fs)) (scoredList u fs) :=
    List.perm_insertionSort pickOrder (scoredList u fs)
  have hmem : best ∈ scoredList u fs :=
    hperm.mem_iff.mp (by rw [hbr]; exact List.mem_cons_self _ _)
  obtain ⟨k, hk, hbest⟩ := mem_scoredList_iff.mp hmem
  have hsorted : List.Sorted pickOrder (best :: rest) := by
    rw [← hbr]; exact List.sorted_insertionSort pickOrder _
  -- the target pair is in the sorted list, hence `best` is `pickOrder`-below it
  have hqmem : (i, score u (fs.get ⟨i, hi⟩)) ∈ best :: rest := by
    rw [← hbr]
    exact hperm.mem_iff.mpr (mem_scoredList_iff.mpr ⟨i, hi, rfl⟩)
  have hrel : pickOrder best (i, score u (fs.get ⟨i, hi⟩)) := by
    rcases List.mem_cons.mp hqmem with h | h
    · rw [← h]; exact pickOrder_refl _
    · exact List.rel_of_sorted_cons hsorted _ h
  -- `best` is the pair at index `i`
  have hrel' : score u (fs.get ⟨i, hi⟩) < score u (fs.get ⟨k, hk⟩) ∨
      (score u (fs.get ⟨k, hk⟩) = score u (fs.get ⟨i, hi⟩) ∧ k ≤ i) := by
    rw [hbest] at hrel; exact hrel
  have hki : k = i := by
    rcases hrel' with h | ⟨h, hle⟩
    · exact absurd h (not_lt.mpr (hmax k hk))
    · by_contra hne'
      have hklt : k < i := lt_of_le_of_ne hle hne'
      have := hfirst k hklt
      rw [show fs.get ⟨k, hklt.trans hi⟩ = fs.get ⟨k, hk⟩ from rfl] at this
      exact absurd h (ne_of_lt this)
  have hb1 : best.1 = i := by rw [hbest]; simpa using hki
  rw [pick_eq_head hbr, hb1]
  simp [List.getElem?_eq_getElem hi]

/-- Appending to a non-empty accumulator never changes the head of the
reduction loop's result. -/
lemma reduceLoop_head? (date_today : ℤ) :
    ∀ (l : List WeatherForecast) (i : ℕ) (acc : List WeatherForecast),
      acc ≠ [] → (reduceLoop date_today i l acc).head? = acc.head?
  | [], _, acc, _ => rfl
  | w :: rest, i, acc, hacc => by
    rw [reduceLoop]
    by_cases h1 : i ≠ 0 ∧ (w.dt_hour ≠ 12 ∨ w.dt_date = date_today)
    · rw [if_pos h1]
      exact reduceLoop_head? date_today rest (i + 1) acc hacc
    · rw [if_neg h1]
      show (if 5 ≤ (acc ++ [w]).length then acc ++ [w]
            else reduceLoop date_today (i + 1) rest (acc ++ [w])).head? = acc.head?
      by_cases h2 : 5 ≤ (acc ++ [w]).length
      · rw [if_pos h2]
        exact List.head?_append_of_ne_nil acc hacc
      · rw [if_neg h2]
        rw [reduceLoop_head? date_today rest (i + 1) _ (by simp)]
        exact List.head?_append_of_ne_nil acc hacc


lemma score_allUnset (f : WeatherForecast) : score allUnset f = 0 := by
  simp [score, tempScore, condScore, windScore, allUnset]

lemma score_sampleA : score scenarioPrefs sampleA = 25 := by
  simp [score, tempScore, condScore, windScore, scenarioPrefs, sampleA, baseSample,
    firstDigit_of_ge, firstDigit_of_lt]
  all_goals norm_num

lemma score_sampleB : score scenarioPrefs sampleB = 5 := by
  simp [score, tempScore, condScore, windScore, scenarioPrefs, sampleB, baseSample,
    firstDigit_of_ge, firstDigit_of_lt]
  all_goals norm_num

lemma score_sampleC : score scenarioPrefs sampleC = 10 := by
  simp [score, tempScore, condScore, windScore, scenarioPrefs, sampleC, baseSample,
    firstDigit_of_ge, firstDigit_of_lt]
  all_goals norm_num

/-- C9: for every non-empty input sequence, the first output element of
the daily reduction is the first input sample, unchanged, regardless of
its hour-of-day or date. -/
theorem reduceToDaily_keeps_first_sample (date_today : ℤ) (s : WeatherForecast)
    (rest : List WeatherForecast) :
    (reduceToDaily date_today (s :: rest)).head? = some s := by
  rw [reduceToDaily, reduceLoop]
  rw [if_neg (by simp)]
  show (if 5 ≤ ([] ++ [s] : List WeatherForecast).length then [] ++ [s]
        else reduceLoop date_today 1 rest ([] ++ [s])).head? = some s
  rw [if_neg (by simp)]
  rw [reduceLoop_head? date_today rest 1 _ (by simp)]
  simp

/-- C10: the score of a candidate depends only on its `current_temp`,
`weather_id` and `wind_speed` fields (besides the preference vector). -/
theorem score_depends_only_on_scored_fields (u : UserWeatherPreferences)
    (f g : WeatherForecast) (h1 : f.current_temp = g.current_temp)
    (h2 : f.weather_id = g.weather_id) (h3 : f.wind_speed = g.wind_speed) :
    score u f = score u g := by
  simp only [score, h1, h2, h3]

/-- Witness for C10: `noisySample` and `baseSample` agree on the three
scored fields, disagree on all the others, and receive equal scores. -/
theorem score_depends_only_on_scored_fields_witness :
    noisySample.current_temp = baseSample.current_temp ∧
    noisySample.weather_id = baseSample.weather_id ∧
    noisySample.wind_speed = baseSample.wind_speed ∧
    noisySample.humidity ≠ baseSample.humidity ∧
    score scenarioPrefs noisySample = score scenarioPrefs baseSample :=
  ⟨rfl, rfl, rfl, by norm_num [noisySample, baseSample],
    score_depends_only_on_scored_fields scenarioPrefs noisySample baseSample rfl rfl rfl⟩

/-- C8 is violated by the code: the stored vector `{temp_min 0, temp_max 10}`
satisfies the invariant, the partial-update payload `{temp_min: 20}` passes
every payload check (the cross-field validator sees no `temp_max` in the
payload), yet the updated stored vector has `temp_max < temp_min`. -/
theorem partial_update_breaks_temp_invariant :
    payload_accepted { temp_min := some (some 20) } = true ∧
    tempInvariant { temp_min := some 0, temp_max := some 10 } = true ∧
    tempInvariant (update_weather_preferences
      { temp_min := some 0, temp_max := some 10 }
      { temp_min := some (some 20) }) = false := by
  refine ⟨?_, ?_, ?_⟩ <;> rfl

/-- C6: for every non-empty candidate list and preference vector, the
returned forecast is an element of the input list. -/
theorem pick_best_mem_input (u : UserWeatherPreferences)
    (fs : List WeatherForecast) (h : fs ≠ []) :
    ∃ w, pick_best_forecast_for_user u fs = some w ∧ w ∈ fs := by
  obtain ⟨best, rest, hbr⟩ :=
    List.exists_cons_of_ne_nil (@sorted_scoredList_ne_nil u fs h)
  have hmem : best ∈ scoredList u fs :=
    (List.perm_insertionSort pickOrder (scoredList u fs)).mem_iff.mp
      (by rw [hbr]; exact List.mem_cons_self _ _)
  obtain ⟨k, hk, hbest⟩ := mem_scoredList_iff.mp hmem
  refine ⟨fs.get ⟨k, hk⟩, ?_, List.get_mem fs k hk⟩
  have hb1 : best.1 = k := by rw [hbest]
  rw [pick_eq_head hbr, hb1]
  simp [List.getElem?_eq_getElem hk]

/-- Witness for C6 at a concrete singleton candidate list. -/
theorem pick_best_mem_input_witness :
    ([baseSample] : List WeatherForecast) ≠ [] ∧
    ∃ w, pick_best_forecast_for_user allUnset [baseSample] = some w ∧
      w ∈ [baseSample] :=
  ⟨by simp, pick_best_mem_input allUnset [baseSample] (by simp)⟩

/-- C4: when `temp_min` is set and the sample is colder than it, the
temperature section contributes exactly `-7.5` and the `temp_max` check is
skipped, so the total score is `-7.5` plus the condition and wind
contributions, whatever `temp_max` is. -/
theorem temp_min_failure_skips_temp_max (u : UserWeatherPreferences)
    (f : WeatherForecast) (tmin : ℤ) (h1 : u.temp_min = some tmin)
    (h2 : f.current_temp < (tmin : ℚ)) :
    tempScore u f.current_temp = -(15 / 2) ∧
    score u f = -(15 / 2) + condScore u f.weather_id
      + windScore u f.wind_speed := by
  have ht : tempScore u f.current_temp = -(15 / 2 : ℚ) := by
    simp only [tempScore, h1]
    rw [if_pos h2]
    norm_num
  refine ⟨ht, ?_⟩
  simp only [score]
  rw [ht]

/-- Witness for C4: `coldSample` (temp 5) against `lowTempPrefs`
(`temp_min 10`, `temp_max 50`); note temp 5 would satisfy the `temp_max`
bound, yet earns nothing from it. -/
theorem temp_min_failure_skips_temp_max_witness :
    lowTempPrefs.temp_min = some 10 ∧
    coldSample.current_temp < ((10 : ℤ) : ℚ) ∧
    (tempScore lowTempPrefs coldSample.current_temp = -(15 / 2) ∧
      score lowTempPrefs coldSample = -(15 / 2)
        + condScore lowTempPrefs coldSample.weather_id
        + windScore lowTempPrefs coldSample.wind_speed) :=
  ⟨rfl, by norm_num [coldSample, baseSample],
    temp_min_failure_skips_temp_max lowTempPrefs coldSample 10 rfl
      (by norm_num [coldSample, baseSample])⟩

lemma score_tieSample0 : score rainPrefs tieSample0 = 10 := by
  simp [score, tempScore, condScore, windScore, rainPrefs, tieSample0, baseSample,
    firstDigit_of_ge, firstDigit_of_lt]

lemma score_tieSample1 : score rainPrefs tieSample1 = 10 := by
  simp [score, tempScore, condScore, windScore, rainPrefs, tieSample1, baseSample,
    firstDigit_of_ge, firstDigit_of_lt]

/-- C7: under the all-unset preference vector every candidate scores 0 and
the first candidate is returned. -/
theorem all_unset_scores_zero_first_returned (fs : List WeatherForecast)
    (h : fs ≠ []) :
    (∀ f : WeatherForecast, score allUnset f = 0) ∧
    pick_best_forecast_for_user allUnset fs = some (fs.head h) := by
  refine ⟨score_allUnset, ?_⟩
  cases fs with
  | nil => exact absurd rfl h
  | cons a l =>
    have hpick := pick_eq_of_least_max allUnset (a :: l) 0 (by simp)
      (fun j hj => by simp [score_allUnset])
      (fun j hj => absurd hj (Nat.not_lt_zero j))
    simpa using hpick

/-- Witness for C7 at a concrete two-candidate list. -/
theorem all_unset_scores_zero_first_returned_witness :
    ([tieSample0, tieSample1] : List WeatherForecast) ≠ [] ∧
    pick_best_forecast_for_user allUnset [tieSample0, tieSample1] =
      some tieSample0 :=
  ⟨by simp,
    (all_unset_scores_zero_first_returned [tieSample0, tieSample1] (by simp)).2⟩

/-- C3: on the spec §8 scenario the scores are A = 25, B = 5, C = 10 and
sample A is selected. -/
theorem scenario_scores_and_best :
    score scenarioPrefs sampleA = 25 ∧
    score scenarioPrefs sampleB = 5 ∧
    score scenarioPrefs sampleC = 10 ∧
    pick_best_forecast_for_user scenarioPrefs [sampleA, sampleB, sampleC] =
      some sampleA := by
  refine ⟨score_sampleA, score_sampleB, score_sampleC, ?_⟩
  have hpick := pick_eq_of_least_max scenarioPrefs [sampleA, sampleB, sampleC] 0
    (by norm_num)
    (fun j hj => by
      have hj3 : j < 3 := by simpa using hj
      interval_cases j <;>
        simp [score_sampleA, score_sampleB, score_sampleC] <;> norm_num)
    (fun j hj => absurd hj (Nat.not_lt_zero j))
  simpa using hpick

/-- C5 as stated is false on the code: with `likesWind = true` the windy
sample (wind 8) scores `3` and the otherwise-identical calm sample
(wind 4) scores `-3`, so the windy one does not exceed the calm one by
exactly 3. -/
theorem windy_bonus_counterexample :
    score windPrefs windySample = 3 ∧
    score windPrefs calmSample = -3 ∧
    score windPrefs windySample ≠ score windPrefs calmSample + 3 := by
  have hw : score windPrefs windySample = 3 := by
    simp [score, tempScore, condScore, windScore, windPrefs, windySample, baseSample,
      firstDigit_of_lt]
    all_goals norm_num
  have hc : score windPrefs calmSample = -3 := by
    simp [score, tempScore, condScore, windScore, windPrefs, calmSample, baseSample,
      firstDigit_of_lt]
    all_goals norm_num
  refine ⟨hw, hc, ?_⟩
  rw [hw, hc]
  norm_num

/-- C5 amended: with `likesWind = true`, a windy sample (wind 8) scores
exactly 6 more than a calm sample (wind 4) that is identical on the other
scored attributes. -/
theorem windy_exceeds_calm_by_six (u : UserWeatherPreferences)
    (f g : WeatherForecast) (hu : u.likes_wind = some true)
    (hf : f.wind_speed = 8) (hg : g.wind_speed = 4)
    (ht : f.current_temp = g.current_temp) (hw : f.weather_id = g.weather_id) :
    score u f = score u g + 6 := by
  have h8 : windScore u f.wind_speed = 3 := by
    rw [hf, windScore, if_pos (by norm_num), if_pos hu]
  have h4 : windScore u g.wind_speed = -3 := by
    rw [hg, windScore, if_neg (by norm_num), if_pos hu]
  simp only [score, ht, hw, h8, h4]
  ring

/-- Witness for the amended C5 at `windySample`/`calmSample` under
`windPrefs`. -/
theorem windy_exceeds_calm_by_six_witness :
    windPrefs.likes_wind = some true ∧
    windySample.wind_speed = 8 ∧ calmSample.wind_speed = 4 ∧
    score windPrefs windySample = score windPrefs calmSample + 6 :=
  ⟨rfl, rfl, rfl,
    windy_exceeds_calm_by_six windPrefs windySample calmSample rfl rfl rfl rfl rfl⟩

lemma halfInt_add {a b : ℚ} (ha : ∃ m : ℤ, a = (m : ℚ) / 2)
    (hb : ∃ m : ℤ, b = (m : ℚ) / 2) : ∃ n : ℤ, a + b = (n : ℚ) / 2 := by
  obtain ⟨m1, h1⟩ := ha
  obtain ⟨m2, h2⟩ := hb
  refine ⟨m1 + m2, ?_⟩
  rw [h1, h2]
  push_cast
  ring

lemma tempScore_halfInt (u : UserWeatherPreferences) (t : ℚ) :
    ∃ n : ℤ, tempScore u t = (n : ℚ) / 2 := by
  rw [tempScore]
  rcases u.temp_min with _ | tmin <;> rcases u.temp_max with _ | tmax <;>
    dsimp only <;> split_ifs <;>
      first
        | (refine ⟨0, ?_⟩; norm_num; done)
        | (refine ⟨15, ?_⟩; norm_num; done)
        | (refine ⟨-15, ?_⟩; norm_num; done)
        | (refine ⟨30, ?_⟩; norm_num; done)
        | (refine ⟨-30, ?_⟩; norm_num; done)

lemma condScore_halfInt (u : UserWeatherPreferences) (wid : ℕ) :
    ∃ n : ℤ, condScore u wid = (n : ℚ) / 2 := by
  rw [condScore]
  dsimp only
  split_ifs <;>
    first
      | (refine ⟨0, ?_⟩; norm_num; done)
      | (refine ⟨20, ?_⟩; norm_num; done)
      | (refine ⟨-20, ?_⟩; norm_num; done)

lemma windScore_halfInt (u : UserWeatherPreferences) (w : ℚ) :
    ∃ n : ℤ, windScore u w = (n : ℚ) / 2 := by
  rw [windScore]
  split_ifs <;>
    first
      | (refine ⟨0, ?_⟩; norm_num; done)
      | (refine ⟨6, ?_⟩; norm_num; done)
      | (refine ⟨-6, ?_⟩; norm_num; done)

/-- C2 as stated is false on the code: with only `temp_min` set and a
sample passing that check, the score is `7.5`, not an integer. -/
theorem score_integer_counterexample :
    score minOnlyPrefs mildSample = 15 / 2 ∧
    ¬ ∃ n : ℤ, score minOnlyPrefs mildSample = (n : ℚ) := by
  have hs : score minOnlyPrefs mildSample = 15 / 2 := by
    simp [score, tempScore, condScore, windScore, minOnlyPrefs, mildSample,
      baseSample, firstDigit_of_lt]
    norm_num
  refine ⟨hs, ?_⟩
  rintro ⟨n, hn⟩
  rw [hs] at hn
  have h15 : (15 : ℚ) = 2 * (n : ℚ) := by
    field_simp at hn
    linarith
  have h15' : (15 : ℤ) = 2 * n := by exact_mod_cast h15
  omega

/-- C2 amended: the per-candidate score is always an integer multiple of
one half (twice the score is an integer); it is a proper half-integer
exactly when a single `±7.5` temperature adjustment is left unpaired. -/
theorem score_is_half_integer (u : UserWeatherPreferences)
    (f : WeatherForecast) : ∃ n : ℤ, score u f = (n : ℚ) / 2 := by
  simp only [score]
  exact halfInt_add (halfInt_add (tempScore_halfInt u f.current_temp)
    (condScore_halfInt u f.weather_id)) (windScore_halfInt u f.wind_speed)

/-- C1: for every candidate list and preference vector, if index `i` holds
the maximum score and every earlier index scores strictly less (i.e. `i`
is the smallest index among those tied for the maximum), the forecast at
`i` is returned. -/
theorem pick_best_returns_earliest_max (u : UserWeatherPreferences)
    (fs : List WeatherForecast) (i : ℕ) (hi : i < fs.length)
    (hmax : ∀ (j : ℕ) (hj : j < fs.length),
      score u (fs.get ⟨j, hj⟩) ≤ score u (fs.get ⟨i, hi⟩))
    (hfirst : ∀ (j : ℕ) (hj : j < i),
      score u (fs.get ⟨j, hj.trans hi⟩) < score u (fs.get ⟨i, hi⟩)) :
    pick_best_forecast_for_user u fs = some (fs.get ⟨i, hi⟩) :=
  pick_eq_of_least_max u fs i hi hmax hfirst

/-- Witness for C1: `tieSample0` and `tieSample1` tie at score 10 under
`rainPrefs` and the earlier one is returned. -/
theorem pick_best_returns_earliest_max_witness :
    score rainPrefs tieSample0 = score rainPrefs tieSample1 ∧
    pick_best_forecast_for_user rainPrefs [tieSample0, tieSample1] =
      some tieSample0 := by
  refine ⟨by rw [score_tieSample0, score_tieSample1], ?_⟩
  exact pick_best_returns_earliest_max rainPrefs [tieSample0, tieSample1] 0
    (by norm_num)
    (fun j hj => by
      have hj2 : j < 2 := by simpa using hj
      interval_cases j <;> simp [score_tieSample0, score_tieSample1])
    (fun j hj => absurd hj (Nat.not_lt_zero j))
